import Mathlib

/-!
Shallow embedding of TreeSupport.cpp, the tree-style support generator:
collision/avoidance field propagation (propagateCollisionAreas), contact
point seeding (generateContactPoints), the layer-by-layer node dropper
(dropNodes), node insertion with merge-on-collision (insertDroppedNode),
and the per-layer renderer (drawCircles).

Polygon regions are modelled extensionally as sets of integer points.
External geometry utilities that are declared outside the given source file
(utils/polygon.h, utils/polygonUtils.h, utils/MinimumSpanningTree.h,
utils/IntPoint.h, TreeSupport.h) are modelled from the spec: they appear as
oracle parameters or as explicitly-named model definitions, with their
contracts taken from the specification's component A/B descriptions.
Machine floating-point subexpressions (branch radius scaling, trigonometry)
are absorbed into oracle fields where their exact value is irrelevant to the
properties proved here.
-/

/-- Integer 2D point in microns (ClipperLib IntPoint, cura Point). -/
abbrev Pt := ℤ × ℤ

/-- The function vSize2 of utils/IntPoint.h: squared Euclidean length. -/
def vSize2 (p : Pt) : ℤ := p.1 * p.1 + p.2 * p.2

/-- The function vSize of utils/IntPoint.h: Euclidean length truncated to an
integer coordinate (a double square root cast to coord_t; modelled as the
floor square root). -/
def vSize (p : Pt) : ℤ := ((vSize2 p).toNat.sqrt : ℤ)

/-- Componentwise halving with C++ truncation toward zero, as in
`(node.position + neighbours[0]) / 2` (TreeSupport.cpp line 374). -/
def halfPt (p : Pt) : Pt := (Int.tdiv p.1 2, Int.tdiv p.2 2)

/-- The value std::numeric_limits of coord_t max for 64-bit coordinates. -/
def coordMax : ℤ := 9223372036854775807

/-- The struct TreeSupport::Node. Modelled from the spec: the header
TreeSupport.h is not part of the given source; per the spec's data model a
node carries position, distance_to_top, skin_direction,
support_roof_layers_below and to_buildplate, and two nodes compare equal
iff their positions are equal (position is the hash-set key). -/
structure Node where
  position : Pt
  distance_to_top : ℕ
  skin_direction : Bool
  support_roof_layers_below : ℤ
  to_buildplate : Bool
deriving DecidableEq, Repr

/-- Field fold applied when a dropped node collides with an existing node at
the same position (TreeSupport.cpp lines 576-577): distance_to_top and
support_roof_layers_below take the maximum of old and new; every other
field of the existing node is kept. -/
def mergeNode (existing incoming : Node) : Node :=
  { existing with
    distance_to_top := max existing.distance_to_top incoming.distance_to_top
    support_roof_layers_below :=
      max existing.support_roof_layers_below incoming.support_roof_layers_below }

/-- The function TreeSupport::insertDroppedNode (lines 567-578). The
unordered_set keyed by position is modelled as a list with unique
positions; find-and-update becomes replace-first-match and a missing key
becomes an append. -/
def insertDroppedNode : List Node → Node → List Node
  | [], node => [node]
  | existing :: rest, node =>
    if existing.position = node.position then mergeNode existing node :: rest
    else existing :: insertDroppedNode rest node

/-- The condition under which dropNodes (line 288) and
propagateCollisionAreas (line 586) pick the unbounded sentinel for
maximum_move_distance. Both lines read
`angle < 90 ? (coord_t)(tan(angle) * layer_height) : std::numeric_limits max`
where `angle = storage.getSettingInAngleRadians("support_tree_angle")`, so
the sentinel is selected iff the RADIAN value of the angle is at least the
literal 90. -/
def maxMoveDistanceIsSentinel (angle : ℝ) : Prop := 90 ≤ angle

/-- Definition following the claim's words, for comparison with the source:
the sentinel is to be used whenever support_tree_angle is at least 90
degrees, that is at least pi/2 radians. -/
def maxMoveDistanceIsSentinelClaim (angle : ℝ) : Prop := Real.pi / 2 ≤ angle

/-- Polygon region, modelled extensionally as the set of integer points it
covers. -/
abbrev Region := Set Pt

/-- One radius-sample column of TreeSupport::propagateCollisionAreas
(lines 589-597): layer 0 of the avoidance is the collision layer 0, and
each further layer is the previous avoidance layer offset by minus
maximum_move_distance, smoothed with parameter 5, united with that layer's
collision area. The polygon operations offset and smooth live in
utils/polygon.h outside the given source and are oracle parameters. -/
def modelAvoidance (offsetOp : Region → ℤ → Region) (smoothOp : Region → ℕ → Region)
    (mmd : ℤ) (collision : ℕ → Region) : ℕ → Region
  | 0 => collision 0
  | l + 1 =>
    smoothOp (offsetOp (modelAvoidance offsetOp smoothOp mmd collision l) (-mmd)) 5 ∪
      collision (l + 1)

/-- One connected part of `model_avoidance[0][layer]` as produced by
splitIntoParts (line 297), exposing the two queries dropNodes makes of it:
the border-inclusive inside test (line 329) and the closest boundary point
(PolygonUtils::findClosest, line 335). Both utilities live outside the
given source and are oracle fields. -/
structure AvoidPart where
  insideB : Pt → Bool
  closest : Pt → Pt

/-- External geometry and MST services consumed by one iteration of the
dropNodes layer loop (lines 294-487), specialised to that layer. The
floating-point branch radius arithmetic of lines 376-377, 430 and 457-458
is absorbed into the oracle fields branchRadiusNode (radius for a given
distance_to_top-like argument) and roundToSample (radius to sample index).
moveOutside acts on `model_avoidance[sample][layer-1]` (lines 382, 463);
guideClosest, ensureInOrOut act on `model_internal_guide[sample][layer-1]`
(lines 387, 391, 468, 472); avoidanceInside is the inside test on
`model_avoidance[sample][layer-1]` (lines 400, 481); collision0Inside and
collision0Closest act on `model_collision[0][layer]` (lines 428, 431);
mstAdjacent is the adjacency query of the MinimumSpanningTree built over a
bucket's positions (lines 347-356, 370, 438). -/
structure DropGeo where
  mmd : ℤ
  branchRadiusNode : ℕ → ℤ
  roundToSample : ℤ → ℕ
  moveOutside : ℕ → Pt → Pt
  guideClosest : ℕ → Pt → Pt
  ensureInOrOut : ℕ → Pt → Pt → ℤ → Pt
  normal : Pt → ℤ → Pt
  avoidanceInside : ℕ → Pt → Bool
  collision0Inside : Pt → Bool
  collision0Closest : Pt → Pt
  mstAdjacent : List Pt → Pt → List Pt

/-- Branch radius sample for a node: `branch_radius_node` then
`branch_radius_sample` (lines 376-377 and 457-458). -/
def DropGeo.sampleFor (G : DropGeo) (d : ℕ) : ℕ := G.roundToSample (G.branchRadiusNode d)

/-- The closest-part search of dropNodes (lines 324-342): walk the parts in
order; a border-inclusive inside hit wins immediately, otherwise keep the
strictly closest part so far. `closest_part` starts at size_t(-1),
represented as `none`, and `closest_part_distance2` starts at coord_t max. -/
def closestPartAux (p : Pt) : List AvoidPart → ℕ → Option ℕ → ℤ → Option ℕ
  | [], _, best, _ => best
  | pd :: rest, i, best, bestDist2 =>
    if pd.insideB p then some i
    else
      let distance2 := vSize2 (p - pd.closest p)
      if distance2 < bestDist2 then closestPartAux p rest (i + 1) (some i) distance2
      else closestPartAux p rest (i + 1) best bestDist2

/-- The bucket index `closest_part + 1` used to index nodes_per_part
(line 344); the C++ `size_t(-1) + 1` wraparound for the unreachable
no-part-chosen case maps `none` to bucket 0. -/
def closestPartPlus1 (parts : List AvoidPart) (p : Pt) : ℕ :=
  match closestPartAux p parts 0 none coordMax with
  | none => 0
  | some i => i + 1

/-- Which bucket of nodes_per_part a node of the current layer lands in
(lines 304-345): `none` when support cannot rest on the model and the node
cannot reach the build plate (lines 306-309, the node is dropped on the
floor); bucket 0 for nodes heading to the build plate or when there are no
parts (lines 310-314); otherwise one past the closest part's index. -/
def bucketIndex? (rests : Bool) (parts : List AvoidPart) (n : Node) : Option ℕ :=
  if !rests && !n.to_buildplate then none
  else if n.to_buildplate || parts.isEmpty then some 0
  else some (closestPartPlus1 parts n.position)

/-- Append a node to bucket `i` of the bucket vector. -/
def addToBucket (gs : List (List Node)) (i : ℕ) (n : Node) : List (List Node) :=
  gs.set i (gs.getD i [] ++ [n])

/-- Folding one node into the bucket vector (lines 304-345): a node whose
bucket index is `none` is skipped (the `continue` of line 308). -/
def bucketStep (rests : Bool) (parts : List AvoidPart) (gs : List (List Node))
    (n : Node) : List (List Node) :=
  match bucketIndex? rests parts n with
  | none => gs
  | some i => addToBucket gs i n

/-- The vector nodes_per_part (lines 298-345): one bucket for the outside
plus one per part, filled in input order. -/
def assignBuckets (rests : Bool) (parts : List AvoidPart) (nodes : List Node) :
    List (List Node) :=
  nodes.foldl (bucketStep rests parts) (List.replicate (parts.length + 1) [])

/-- The lookup `nodes_per_part[group_index][neighbour]` (line 411): find a
node by position within its bucket. The default value mirrors the
default-constructed Node of unordered_map subscripting, which is
unreachable because MST vertices are exactly the bucket's keys. -/
def lookupNode (group : List Node) (q : Pt) : Node :=
  (group.find? fun m => decide (m.position = q)).getD ⟨q, 0, false, 0, false⟩

/-- The move-towards-the-centre reconciliation used for model-resting
buckets (lines 386-398 in pass 1, lines 467-478 in pass 2): find the
closest border point of the internal guide seen from `fromPos`, try to move
the tentative position one step further inside, then clamp the total
displacement from the node's position to maximum_move_distance. Pass 1
queries findClosest from the node's position, pass 2 from the tentative
vertex; both measure `distance` from the node's position (line 388 and
line 469). -/
def guideReconcile (G : DropGeo) (sample : ℕ) (nodePos fromPos tentative : Pt) : Pt :=
  let closest := G.guideClosest sample fromPos
  let distance := vSize (nodePos - closest)
  let movedInside := G.ensureInOrOut sample tentative closest (distance + G.mmd)
  let difference := movedInside - nodePos
  let difference :=
    if vSize2 difference > G.mmd * G.mmd then G.normal difference G.mmd else difference
  nodePos + difference

/-- One node of pass 1 of dropNodes (lines 363-418). State: the layer below
being built and the positions marked for deletion. A dyad (two nodes that
are each other's sole MST neighbours, closer than maximum_move_distance)
emits a merged node at the reconciled midpoint, without marking either
member deleted (no insertion into to_delete happens on that path). A node
with several neighbours folds each close neighbour's fields into a local
by-value copy and marks that neighbour deleted; the folded copy is then
dropped on the floor exactly as the source's local `node` copy goes out of
scope (nothing writes it back to nodes_per_part), so only the deletions
survive this branch. -/
def pass1Step (G : DropGeo) (gi : ℕ) (group : List Node) (adj : Pt → List Pt)
    (st : List Node × List Pt) (node : Node) : List Node × List Pt :=
  if node.position ∈ st.2 then st
  else
    match adj node.position with
    | [q] =>
      if vSize2 (q - node.position) < G.mmd * G.mmd ∧ (adj q).length = 1 then
        let nextPosition := halfPt (node.position + q)
        let sample := G.sampleFor (node.distance_to_top + 1)
        let nextPosition :=
          if gi = 0 then G.moveOutside sample nextPosition
          else guideReconcile G sample node.position node.position nextPosition
        let toBuildplate := !G.avoidanceInside sample nextPosition
        (insertDroppedNode st.1
            ⟨nextPosition, node.distance_to_top + 1, node.skin_direction,
              node.support_roof_layers_below - 1, toBuildplate⟩,
          st.2)
      else st
    | neighbours =>
      if neighbours.length > 1 then
        let folded :=
          neighbours.foldl
            (fun (acc : Node × List Pt) q =>
              if vSize2 (q - node.position) < G.mmd * G.mmd then
                let neighbourNode := lookupNode group q
                (⟨acc.1.position,
                    max acc.1.distance_to_top neighbourNode.distance_to_top,
                    acc.1.skin_direction,
                    max acc.1.support_roof_layers_below
                      neighbourNode.support_roof_layers_below,
                    acc.1.to_buildplate⟩,
                  acc.2 ++ [q])
              else acc)
            (node, st.2)
        (st.1, folded.2)
      else st

/-- One node of pass 2 of dropNodes (lines 420-484): deleted nodes are
skipped; a model-resting node buried deeper in `model_collision[0][layer]`
than its branch radius is dropped (lines 428-436); otherwise the node moves
by the clamped sum of neighbour directions unless it is a leaf about to
collapse (lines 437-455), is reconciled against the layer below
(lines 457-479) and is inserted there (lines 481-483). -/
def pass2Step (G : DropGeo) (gi : ℕ) (adj : Pt → List Pt) (toDelete : List Pt)
    (below : List Node) (node : Node) : List Node :=
  if node.position ∈ toDelete then below
  else if 0 < gi ∧ G.collision0Inside node.position = true ∧
      G.branchRadiusNode node.distance_to_top * G.branchRadiusNode node.distance_to_top ≤
        vSize2 (node.position - G.collision0Closest node.position) then
    below
  else
    let neighbours := adj node.position
    let moveCond : Bool :=
      decide (neighbours.length > 1) ||
        (match neighbours with
          | [q] => decide (G.mmd * G.mmd ≤ vSize2 (q - node.position))
          | _ => false)
    let nextLayerVertex :=
      if moveCond then
        let sumDirection :=
          neighbours.foldl (fun s q => s + (q - node.position)) ((0, 0) : Pt)
        if vSize2 sumDirection ≤ G.mmd * G.mmd then node.position + sumDirection
        else node.position + G.normal sumDirection G.mmd
      else node.position
    let sample := G.sampleFor (node.distance_to_top + 1)
    let v :=
      if gi = 0 then G.moveOutside sample nextLayerVertex
      else guideReconcile G sample node.position nextLayerVertex nextLayerVertex
    let toBuildplate := !G.avoidanceInside sample v
    insertDroppedNode below
      ⟨v, node.distance_to_top + 1, node.skin_direction,
        node.support_roof_layers_below - 1, toBuildplate⟩

/-- Processing of one bucket of one layer (lines 358-485): build the MST
over the bucket's positions (lines 347-356), run pass 1, then run pass 2
over the same unmodified bucket with the deletions collected by pass 1,
threading the layer below through both passes. -/
def processGroup (G : DropGeo) (below : List Node) (gi : ℕ) (group : List Node) :
    List Node :=
  let adj := G.mstAdjacent (group.map (·.position))
  let afterPass1 := group.foldl (pass1Step G gi group adj) (below, [])
  group.foldl (pass2Step G gi adj afterPass1.2) afterPass1.1

/-- One iteration of the dropNodes layer loop (lines 294-487): bucket the
nodes of the processed layer, then process each bucket in order, producing
the new contents of `contact_nodes[layer - 1]` from the existing ones. -/
def processLayer (G : DropGeo) (rests : Bool) (parts : List AvoidPart)
    (nodes : List Node) (below : List Node) : List Node :=
  (assignBuckets rests parts nodes).enum.foldl
    (fun acc gig => processGroup G acc gig.1 gig.2) below

/-- Effect of one dropNodes layer iteration on the whole contact_nodes
array: every write targets layer `l - 1` (insertDroppedNode at lines 402
and 483); the processed layer itself is only read (nodes are taken by value
at lines 304, 363 and 420, and deletions are tracked in the local
to_delete set only). -/
def dropLayer (G : DropGeo) (rests : Bool) (parts : List AvoidPart)
    (contact : ℕ → List Node) (l : ℕ) : ℕ → List Node :=
  fun j =>
    if j = l - 1 then processLayer G rests parts (contact l) (contact (l - 1))
    else contact j

/-- Per-node channel routing of drawCircles (lines 193-224): each node's
generated shape goes to the roof channel when support_roof_layers_below is
at least 0 (line 216) and to the plain support channel otherwise. The shape
itself (the scaled or sheared branch_circle, double arithmetic of
lines 195-215) is abstracted into `circleOf`. Returns the pair of the
support shapes and the roof shapes, in node order. -/
def drawCirclesLayer {α : Type} (circleOf : Node → α) (nodes : List Node) :
    List α × List α :=
  nodes.foldl
    (fun acc n =>
      if 0 ≤ n.support_roof_layers_below then (acc.1, acc.2 ++ [circleOf n])
      else (acc.1 ++ [circleOf n], acc.2))
    ([], [])

/-- Union of a list of regions (the add of several circles followed by
unionPolygons, lines 214-226). -/
def shapesUnion (l : List Region) : Region := fun p => ∃ s ∈ l, p ∈ s

/-- The index z_collision_layer (line 228):
`max(0, layer_nr - z_distance_bottom_layers + 1)` computed in int and cast
back to size_t. -/
def zCollisionLayer (layer zdb : ℕ) : ℕ := ((layer : ℤ) - (zdb : ℤ) + 1).toNat

/-- Everything drawCircles touches for one layer (lines 186-266). External
polygon algebra appears as oracle fields: simplifyOp for Polygons::simplify
with its maximum-segment and maximum-deviation arguments (line 236),
offsetOp for Polygons::offset (line 258). floorSamples are the model
outlines at the stride layers sampled by lines 246-256, and floor0 the
pre-existing support_bottom content. -/
structure RenderCtx where
  circleOf : Node → Region
  nodes : List Node
  roof0 : Region
  collision0 : ℕ → Region
  numCollisionLayers : ℕ
  layer : ℕ
  zdb : ℕ
  maxSegment : ℤ
  maxDeviation : ℤ
  simplifyOp : Region → ℤ → ℤ → Region
  bottomEnable : Bool
  floorSamples : List Region
  floor0 : Region
  offsetOp : Region → ℤ → Region

/-- The support polygon of one layer just before simplification
(lines 189-233): the circles routed to support, unioned, minus the roof,
minus `model_collision[0][z_collision_layer]` when that collision layer
exists (the guard of line 229). -/
def preSimplifySupport (R : RenderCtx) : Region :=
  let channels := drawCirclesLayer R.circleOf R.nodes
  let supportLayer := shapesUnion channels.1
  let roofLayer := R.roof0 ∪ shapesUnion channels.2
  let supportLayer := supportLayer \ roofLayer
  if zCollisionLayer R.layer R.zdb < R.numCollisionLayers then
    supportLayer \ R.collision0 (zCollisionLayer R.layer R.zdb)
  else supportLayer

/-- The roof polygon of one layer as stored (lines 190-232): pre-existing
roof content plus the roof-routed circles, minus the collision layer when
it exists. The roof is not simplified and support floors do not touch it. -/
def renderRoof (R : RenderCtx) : Region :=
  let roofLayer := R.roof0 ∪ shapesUnion (drawCirclesLayer R.circleOf R.nodes).2
  if zCollisionLayer R.layer R.zdb < R.numCollisionLayers then
    roofLayer \ R.collision0 (zCollisionLayer R.layer R.zdb)
  else roofLayer

/-- The support polygon of one layer as emitted into support_infill_parts
(lines 234-266): the pre-simplify support run through Polygons::simplify
(line 236) and then, when support floors are enabled, minus the floor
polygon inflated by 10 microns (lines 239-259). The split into
PolygonsPart values (lines 261-266) partitions this region, so the union
of the emitted parts is exactly this set. -/
def renderSupport (R : RenderCtx) : Region :=
  let simplified := R.simplifyOp (preSimplifySupport R) R.maxSegment R.maxDeviation
  if R.bottomEnable then
    let floorLayer :=
      R.floor0 ∪ shapesUnion (R.floorSamples.map fun s => simplified ∩ s)
    simplified \ R.offsetOp floorLayer 10
  else simplified

/-- Modelled from the spec: the contract of Polygons::simplify
(utils/polygon.h, outside the given source), which removes segments shorter
than maxSegment provided vertex displacement stays within maxDeviation —
every point of the output region lies within maxDeviation of a point of the
input region. -/
def SimplifyContract (f : Region → ℤ → ℤ → Region) : Prop :=
  ∀ s ms md p, p ∈ f s ms md → ∃ q ∈ s, vSize2 (p - q) ≤ md * md

/-- Axis-aligned bounding box over integer points. Modelled from the spec:
the AABB utility is outside the given source; componentwise min and max
with the usual extreme-coordinate initialisation. -/
structure Aabb where
  lo : Pt
  hi : Pt
deriving DecidableEq, Repr

/-- The AABB of a polygon's points (the constructor used at line 534). -/
def aabbOf (poly : List Pt) : Aabb :=
  poly.foldl
    (fun bb p =>
      ⟨(Min.min bb.lo.1 p.1, Min.min bb.lo.2 p.2),
        (Max.max bb.hi.1 p.1, Max.max bb.hi.2 p.2)⟩)
    ⟨(coordMax, coordMax), (-coordMax - 1, -coordMax - 1)⟩

/-- AABB::expand (line 535): grow the box by `d` on every side. -/
def Aabb.expand (bb : Aabb) (d : ℤ) : Aabb :=
  ⟨(bb.lo.1 - d, bb.lo.2 - d), (bb.hi.1 + d, bb.hi.2 + d)⟩

/-- AABB contains-test (line 539). -/
def Aabb.containsPt (bb : Aabb) (p : Pt) : Bool :=
  decide (bb.lo.1 ≤ p.1 ∧ p.1 ≤ bb.hi.1 ∧ bb.lo.2 ≤ p.2 ∧ p.2 ≤ bb.hi.2)

/-- AABB::getMiddle (line 556): the midpoint of the box with C++ truncating
division. -/
def Aabb.getMiddle (bb : Aabb) : Pt :=
  (Int.tdiv (bb.lo.1 + bb.hi.1) 2, Int.tdiv (bb.lo.2 + bb.hi.2) 2)

/-- One grid candidate for one overhang part (lines 537-552): pre-filter by
the part's AABB expanded by half_overhang_distance, move the point inside
the overhang (PolygonUtils::moveInside with distance 0 and the squared
half-overhang-distance budget, an oracle), then accept it when it lies
inside the overhang part and outside the collision area, seeding a node
with distance_to_top 0 and to_buildplate true. -/
def acceptedCandidate (bounds : Aabb) (moveInsideA : Pt → Pt)
    (overhangInside collisionInside : Pt → Bool) (skinA : Bool) (roofLayers : ℤ)
    (c : Pt) : Option Node :=
  if bounds.containsPt c then
    let c := moveInsideA c
    if overhangInside c && !collisionInside c then
      some ⟨c, 0, skinA, roofLayers, true⟩
    else none
  else none

/-- The nodes generateContactPoints seeds for one overhang part on one
layer (lines 532-563): the accepted grid candidates, or, when none was
accepted, exactly one fallback node whose position is the middle of the
MESH's flattened bounding box moved inside the overhang part
(`Point candidate = bounding_box.getMiddle()` at line 556, where
bounding_box is `mesh.bounding_box.flatten()` from line 495), with
distance_to_top 0, skin parity `layer_nr mod 2` (line 560, unlike the
accepted candidates' `(layer_nr + z_distance_top_layers) mod 2` of
line 548) and to_buildplate true. -/
def contactNodesForPart (grid : List Pt) (part : List Pt) (hod : ℤ)
    (moveInsideA moveInsideB : Pt → Pt) (overhangInside collisionInside : Pt → Bool)
    (skinA skinF : Bool) (roofLayers : ℤ) (meshBox : Aabb) : List Node :=
  let accepted :=
    grid.filterMap
      (acceptedCandidate ((aabbOf part).expand hod) moveInsideA overhangInside
        collisionInside skinA roofLayers)
  if accepted.isEmpty then
    [⟨moveInsideB meshBox.getMiddle, 0, skinF, roofLayers, true⟩]
  else accepted

/-- Definition following the claim's words, for comparison with the source:
the fallback position the claim asserts, namely the centre of the overhang
part's OWN bounding box moved inside the overhang part. -/
def claimFallbackPosition (moveInsideB : Pt → Pt) (part : List Pt) : Pt :=
  moveInsideB (aabbOf part).getMiddle

/-- Concrete dropNodes oracle for a two-node dyad: slope budget 200
microns per layer, every movement primitive the identity over empty
avoidance polygons, and an MST joining (0,0) and (100,0) mutually. -/
def dyadGeo : DropGeo where
  mmd := 200
  branchRadiusNode := fun _ => 0
  roundToSample := fun _ => 0
  moveOutside := fun _ p => p
  guideClosest := fun _ _ => (0, 0)
  ensureInOrOut := fun _ p _ _ => p
  normal := fun p _ => p
  avoidanceInside := fun _ _ => false
  collision0Inside := fun _ => false
  collision0Closest := fun _ => (0, 0)
  mstAdjacent := fun _ p =>
    if p = ((0, 0) : Pt) then [(100, 0)]
    else if p = ((100, 0) : Pt) then [(0, 0)]
    else []

/-- Concrete dropNodes oracle for a three-node star MST centred at the
origin, with slope budget 100 microns per layer. -/
def starGeo : DropGeo where
  mmd := 100
  branchRadiusNode := fun _ => 0
  roundToSample := fun _ => 0
  moveOutside := fun _ p => p
  guideClosest := fun _ _ => (0, 0)
  ensureInOrOut := fun _ p _ _ => p
  normal := fun p _ => p
  avoidanceInside := fun _ _ => false
  collision0Inside := fun _ => false
  collision0Closest := fun _ => (0, 0)
  mstAdjacent := fun _ p =>
    if p = ((0, 0) : Pt) then [(10, 0), (-10, 0)]
    else if p = ((10, 0) : Pt) then [(0, 0)]
    else if p = ((-10, 0) : Pt) then [(0, 0)]
    else []

/-- Degenerate dropNodes oracle used to instantiate frame statements. -/
def trivialGeo : DropGeo where
  mmd := 0
  branchRadiusNode := fun _ => 0
  roundToSample := fun _ => 0
  moveOutside := fun _ p => p
  guideClosest := fun _ _ => (0, 0)
  ensureInOrOut := fun _ p _ _ => p
  normal := fun p _ => p
  avoidanceInside := fun _ _ => false
  collision0Inside := fun _ => false
  collision0Closest := fun _ => (0, 0)
  mstAdjacent := fun _ _ => []

/-- The two members of the concrete dyad: mutual sole MST neighbours 100
microns apart, within the 200-micron move budget. -/
def dyadNodeA : Node := ⟨(0, 0), 2, false, 0, true⟩

/-- Second member of the concrete dyad, carrying the larger
distance_to_top. -/
def dyadNodeB : Node := ⟨(100, 0), 5, false, 0, true⟩

/-- Centre of the concrete star MST. -/
def starNodeN : Node := ⟨(0, 0), 0, false, 0, true⟩

/-- First absorbed neighbour of the star centre. -/
def starNodeB : Node := ⟨(10, 0), 5, false, 4, true⟩

/-- Second absorbed neighbour of the star centre, carrying the maxima. -/
def starNodeC : Node := ⟨(-10, 0), 7, false, 2, true⟩

/-- Existing node used to exercise the insertDroppedNode conflict path. -/
def insNodeOld : Node := ⟨(0, 0), 1, true, 2, true⟩

/-- Incoming node at the same position as insNodeOld. -/
def insNodeNew : Node := ⟨(0, 0), 4, false, 0, false⟩

/-- A node that cannot reach the build plate, under buildplate-only
policy. -/
def wNodeDrop : Node := ⟨(7, 7), 0, false, 0, false⟩

/-- A Polygons::simplify model that dilates its input by the maximum
deviation: every output point is within maxDeviation of an input point, so
the spec's simplify contract holds, while the region may grow. -/
def dilateSimplify : Region → ℤ → ℤ → Region :=
  fun s _ md => {p | ∃ q ∈ s, vSize2 (p - q) ≤ md * md}

/-- Concrete renderer context: a single support-routed node whose circle is
the origin, a collision region one micron to its right, and the dilating
simplify model with deviation 2. -/
def renderCtxCE : RenderCtx where
  circleOf := fun _ => {((0, 0) : Pt)}
  nodes := [⟨(0, 0), 0, false, -1, false⟩]
  roof0 := ∅
  collision0 := fun _ => {((1, 0) : Pt)}
  numCollisionLayers := 10
  layer := 3
  zdb := 2
  maxSegment := 0
  maxDeviation := 2
  simplifyOp := dilateSimplify
  bottomEnable := false
  floorSamples := []
  floor0 := ∅
  offsetOp := fun s _ => s

/-- Degenerate renderer context used to instantiate the amended renderer
statement. -/
def renderCtxTriv : RenderCtx where
  circleOf := fun _ => ∅
  nodes := []
  roof0 := ∅
  collision0 := fun _ => ∅
  numCollisionLayers := 1
  layer := 0
  zdb := 5
  maxSegment := 0
  maxDeviation := 0
  simplifyOp := fun s _ _ => s
  bottomEnable := false
  floorSamples := []
  floor0 := ∅
  offsetOp := fun s _ => s

/-- Concrete overhang part: the square with corners (0,0) and (4,4). -/
def overhangRect : List Pt := [(0, 0), (4, 0), (4, 4), (0, 4)]

/-- Border-inclusive inside test for overhangRect. -/
def overhangRectInside (p : Pt) : Bool :=
  decide (0 ≤ p.1 ∧ p.1 ≤ 4 ∧ 0 ≤ p.2 ∧ p.2 ≤ 4)

/-- A PolygonUtils::moveInside model for overhangRect: a no-op on points
already inside, otherwise clamp into the interior. -/
def moveInsideRect (p : Pt) : Pt :=
  if overhangRectInside p then p
  else (Min.min (Max.max p.1 1) 3, Min.min (Max.max p.2 1) 3)

/-- Concrete mesh bounding box whose middle, (5,5), differs from the
overhang part's own bounding-box middle (2,2). -/
def meshBoxCE : Aabb := ⟨(0, 0), (10, 10)⟩

/-- Helper: a member of a bucket read through getD comes from some bucket of
the vector. -/
theorem memOfGetD {gs : List (List Node)} {i : ℕ} {m : Node}
    (h : m ∈ gs.getD i []) : ∃ g ∈ gs, m ∈ g := by
  by_cases hi : i < gs.length
  · refine ⟨gs[i], List.getElem_mem hi, ?_⟩
    rw [List.getD_eq_getElem?_getD, List.getElem?_eq_getElem hi] at h
    simpa using h
  · rw [List.getD_eq_getElem?_getD, List.getElem?_eq_none (le_of_not_lt hi)] at h
    simp at h

/-- Helper: addToBucket preserves the all-members-reach-buildplate
invariant when the added node reaches the build plate. -/
theorem addToBucketTb {gs : List (List Node)} {i : ℕ} {n : Node}
    (hacc : ∀ g ∈ gs, ∀ m ∈ g, m.to_buildplate = true)
    (hn : n.to_buildplate = true) :
    ∀ g ∈ addToBucket gs i n, ∀ m ∈ g, m.to_buildplate = true := by
  intro g hg m hm
  rcases List.mem_or_eq_of_mem_set hg with h | h
  · exact hacc g h m hm
  · subst h
    rcases List.mem_append.1 hm with h | h
    · obtain ⟨g2, hg2, hm2⟩ := memOfGetD h
      exact hacc g2 hg2 m hm2
    · exact (List.mem_singleton.1 h) ▸ hn

/-- Helper: under the buildplate-only policy, a node is only assigned a
bucket when it can reach the build plate. -/
theorem bucketIndexFalseSome {parts : List AvoidPart} {n : Node} {i : ℕ}
    (h : bucketIndex? false parts n = some i) : n.to_buildplate = true := by
  cases htb : n.to_buildplate with
  | false => simp [bucketIndex?, htb] at h
  | true => rfl

/-- Helper: every node in every bucket built under the buildplate-only
policy reaches the build plate. -/
theorem assignBucketsTbAux (parts : List AvoidPart) :
    ∀ (nodes : List Node) (acc : List (List Node)),
      (∀ g ∈ acc, ∀ m ∈ g, m.to_buildplate = true) →
      ∀ g ∈ nodes.foldl (bucketStep false parts) acc, ∀ m ∈ g, m.to_buildplate = true
  | [], acc, hacc => by simpa using hacc
  | n :: rest, acc, hacc => by
    rw [List.foldl_cons]
    cases hidx : bucketIndex? false parts n with
    | none =>
      have hstep : bucketStep false parts acc n = acc := by
        simp [bucketStep, hidx]
      rw [hstep]
      exact assignBucketsTbAux parts rest acc hacc
    | some i =>
      have hstep : bucketStep false parts acc n = addToBucket acc i n := by
        simp [bucketStep, hidx]
      rw [hstep]
      exact assignBucketsTbAux parts rest _
        (addToBucketTb hacc (bucketIndexFalseSome hidx))

/-- Helper: the bucket vector under the buildplate-only policy only holds
nodes that reach the build plate. -/
theorem assignBucketsTb (parts : List AvoidPart) (nodes : List Node) :
    ∀ g ∈ assignBuckets false parts nodes, ∀ m ∈ g, m.to_buildplate = true := by
  refine assignBucketsTbAux parts nodes _ ?_
  intro g hg m hm
  rw [List.eq_of_mem_replicate hg] at hm
  simp at hm

/-- Helper: under the buildplate-only policy, bucketing ignores exactly the
nodes that cannot reach the build plate. -/
theorem assignBucketsFilterAux (parts : List AvoidPart) :
    ∀ (nodes : List Node) (acc : List (List Node)),
      nodes.foldl (bucketStep false parts) acc =
        (nodes.filter fun n => n.to_buildplate).foldl (bucketStep false parts) acc
  | [], _ => rfl
  | n :: rest, acc => by
    cases htb : n.to_buildplate with
    | true =>
      rw [List.filter_cons_of_pos htb, List.foldl_cons, List.foldl_cons]
      exact assignBucketsFilterAux parts rest _
    | false =>
      rw [List.filter_cons_of_neg (by simp [htb]), List.foldl_cons]
      have hstep : bucketStep false parts acc n = acc := by
        simp [bucketStep, bucketIndex?, htb]
      rw [hstep]
      exact assignBucketsFilterAux parts rest acc

/-- Helper: inserting a node whose position is fresh appends it. -/
theorem insertDroppedNodeFresh (node : Node) :
    ∀ (layer : List Node), (∀ m ∈ layer, m.position ≠ node.position) →
      insertDroppedNode layer node = layer ++ [node]
  | [], _ => rfl
  | x :: rest, h => by
    have hx : x.position ≠ node.position := h x (List.mem_cons_self x rest)
    simp only [insertDroppedNode, if_neg hx, List.cons_append]
    rw [insertDroppedNodeFresh node rest fun y hy => h y (List.mem_cons_of_mem x hy)]

/-- Helper: inserting a node that collides with an existing position folds
into the first node at that position and changes nothing else. -/
theorem insertDroppedNodeConflict (node : Node) :
    ∀ (pre : List Node) (m : Node) (post : List Node),
      m.position = node.position → (∀ x ∈ pre, x.position ≠ node.position) →
      insertDroppedNode (pre ++ m :: post) node = pre ++ mergeNode m node :: post
  | [], m, post, hm, _ => by simp [insertDroppedNode, hm]
  | x :: xs, m, post, hm, hpre => by
    have hx : x.position ≠ node.position := hpre x (List.mem_cons_self x xs)
    have ih := insertDroppedNodeConflict node xs m post hm
      fun y hy => hpre y (List.mem_cons_of_mem x hy)
    simp only [List.cons_append, insertDroppedNode, if_neg hx]
    exact congrArg (List.cons x) ih

/-- Helper: the drawCircles routing fold, with an arbitrary accumulator,
splits the nodes by the sign of support_roof_layers_below. -/
theorem drawCirclesGo {α : Type} (circleOf : Node → α) :
    ∀ (nodes : List Node) (acc : List α × List α),
      nodes.foldl
          (fun acc n =>
            if 0 ≤ n.support_roof_layers_below then (acc.1, acc.2 ++ [circleOf n])
            else (acc.1 ++ [circleOf n], acc.2)) acc =
        (acc.1 ++
            (nodes.filter fun n => decide (n.support_roof_layers_below < 0)).map circleOf,
          acc.2 ++
            (nodes.filter fun n => decide (0 ≤ n.support_roof_layers_below)).map circleOf)
  | [], acc => by simp
  | n :: rest, acc => by
    rcases le_or_lt 0 n.support_roof_layers_below with h | h
    · have h1 : decide (n.support_roof_layers_below < 0) = false :=
        decide_eq_false (not_lt.2 h)
      have h2 : decide (0 ≤ n.support_roof_layers_below) = true := decide_eq_true h
      simp only [List.foldl_cons, if_pos h, drawCirclesGo circleOf rest,
        List.filter_cons, h1, h2, if_true, if_false, Bool.false_eq_true, List.map_cons]
      simp
    · have h1 : decide (n.support_roof_layers_below < 0) = true := decide_eq_true h
      have h2 : decide (0 ≤ n.support_roof_layers_below) = false :=
        decide_eq_false (not_le.2 h)
      simp only [List.foldl_cons, if_neg (not_le.2 h), drawCirclesGo circleOf rest,
        List.filter_cons, h1, h2, if_true, if_false, Bool.false_eq_true, List.map_cons]
      simp

/-- C1: the claim states that a dyad bucket (two nodes, each the other's
sole MST neighbour, closer than maximum_move_distance) yields EXACTLY ONE
node on the layer below, at the reconciled midpoint with distance_to_top
one more than the pair's maximum, and that neither member produces any
additional node. On the source, pass 1 emits the midpoint node once per
member (the two insertions collide and fold distance_to_top to 1 plus the
maximum), but neither member is ever put into to_delete, so pass 2
processes both members again and re-inserts each of them, unmoved, onto the
layer below: three nodes appear where the claim (and the source's own
comment "let both original nodes fade", line 373) allows one. Concretely,
for the dyad at (0,0) with distance_to_top 2 and (100,0) with
distance_to_top 5 under move budget 200, the layer below receives the
midpoint node (50,0) with distance_to_top 6 = 1 + max, plus re-emitted
nodes at (0,0) and (100,0). -/
theorem C1_dyad_merge_reemits_members :
    processLayer dyadGeo true [] [dyadNodeA, dyadNodeB] [] =
      [⟨(50, 0), 6, false, -1, true⟩, ⟨(0, 0), 3, false, -1, true⟩,
        ⟨(100, 0), 6, false, -1, true⟩] := by
  decide

/-- C2: the claim states that in pass 1 a node with more than one MST
neighbour absorbs each neighbour closer than maximum_move_distance, and
that the node subsequently emitted for it on the layer below carries
distance_to_top 1 plus the maximum over the node and all absorbed
neighbours and support_roof_layers_below the maximum minus 1. On the
source, the absorbed neighbours are indeed marked deleted and produce
nothing, but the max-folding of lines 412-413 mutates a local by-value copy
(`const Node node = entry.second`, line 365) that is discarded when the
loop iteration ends; pass 2 re-reads the unmodified node from
nodes_per_part, so the emitted node carries only the node's own values.
Concretely, the star centre (0,0) with distance_to_top 0 and
support_roof_layers_below 0 absorbs neighbours with distance_to_top 5 and 7
and support_roof_layers_below 4 and 2, yet the emitted node has
distance_to_top 1 (not 8) and support_roof_layers_below -1 (not 3). -/
theorem C2_absorbed_maxima_discarded :
    processLayer starGeo true [] [starNodeN, starNodeB, starNodeC] [] =
      [⟨(0, 0), 1, false, -1, true⟩] := by
  decide

/-- C3 counterexample: the fallback node emitted when no grid candidate is
accepted sits at the MESH bounding box's middle moved inside the overhang
part, not at the overhang part's own bounding-box middle moved inside as
the claim states. For the square overhang part with corners (0,0)-(4,4)
inside a mesh bounding box (0,0)-(10,10), the source emits the node at
moveInside((5,5)) = (3,3) while the claim prescribes
moveInside((2,2)) = (2,2). -/
theorem C3_fallback_uses_mesh_bbox_centre :
    (contactNodesForPart [] overhangRect 2 id moveInsideRect overhangRectInside
          (fun _ => false) false false 0 meshBoxCE).map Node.position = [(3, 3)] ∧
      claimFallbackPosition moveInsideRect overhangRect = (2, 2) ∧
      ((3, 3) : Pt) ≠ (2, 2) := by
  refine ⟨by decide, by decide, by decide⟩

/-- C3 amended: for every connected overhang part on a seeded layer for
which no grid candidate is accepted, generateContactPoints inserts exactly
one fallback node, with distance_to_top 0 and to_buildplate true, whose
position is the centre of the MESH's flattened bounding box moved inside
that overhang part. -/
theorem C3_fallback_amended (grid part : List Pt) (hod : ℤ) (mA mB : Pt → Pt)
    (oi ci : Pt → Bool) (skinA skinF : Bool) (roofLayers : ℤ) (meshBox : Aabb)
    (h : grid.filterMap
        (acceptedCandidate ((aabbOf part).expand hod) mA oi ci skinA roofLayers) = []) :
    contactNodesForPart grid part hod mA mB oi ci skinA skinF roofLayers meshBox =
      [⟨mB meshBox.getMiddle, 0, skinF, roofLayers, true⟩] := by
  simp [contactNodesForPart, h]

/-- C3 amended, instantiated: with an empty candidate grid the single
fallback node appears at the moved-inside mesh-box middle. -/
theorem C3_fallback_amended_witness :
    contactNodesForPart [] overhangRect 2 id moveInsideRect overhangRectInside
        (fun _ => false) false false 0 meshBoxCE =
      [⟨moveInsideRect meshBoxCE.getMiddle, 0, false, 0, true⟩] :=
  C3_fallback_amended [] overhangRect 2 id moveInsideRect overhangRectInside
    (fun _ => false) false false 0 meshBoxCE rfl

/-- C4: after propagation, every collision layer is contained in the
corresponding avoidance layer; avoidance layer 0 equals collision layer 0;
and every later avoidance layer is exactly the smoothed inward offset of
the previous avoidance layer united with that layer's collision area. This
holds for every radius sample column and every choice of the offset and
smooth primitives. -/
theorem C4_avoidance_recurrence_and_subset (offsetOp : Region → ℤ → Region)
    (smoothOp : Region → ℕ → Region) (mmd : ℤ) (collisionAt : ℕ → ℕ → Region)
    (s l : ℕ) :
    collisionAt s l ⊆ modelAvoidance offsetOp smoothOp mmd (collisionAt s) l ∧
      modelAvoidance offsetOp smoothOp mmd (collisionAt s) 0 = collisionAt s 0 ∧
      ∀ k, modelAvoidance offsetOp smoothOp mmd (collisionAt s) (k + 1) =
        smoothOp
            (offsetOp (modelAvoidance offsetOp smoothOp mmd (collisionAt s) k) (-mmd)) 5 ∪
          collisionAt s (k + 1) := by
  refine ⟨?_, rfl, fun k => rfl⟩
  cases l with
  | zero => exact subset_rfl
  | succ k => exact fun p hp => Or.inr hp

/-- C5: the claim states that for support_tree_angle of at least 90 degrees
(pi/2 radians) the unbounded sentinel is used for maximum_move_distance,
and the tangent formula only below 90 degrees. The source (dropNodes
line 288 and propagateCollisionAreas line 586) compares the RADIAN angle
against the literal 90, so at exactly 90 degrees (pi/2 radians, which is
smaller than 90) the tangent branch is taken instead of the sentinel: the
claim's guard holds at pi/2 while the source's sentinel condition fails. -/
theorem C5_sentinel_condition_mismatch :
    maxMoveDistanceIsSentinelClaim (Real.pi / 2) ∧
      ¬ maxMoveDistanceIsSentinel (Real.pi / 2) := by
  constructor
  · exact le_rfl
  · intro h
    have hpi := Real.pi_lt_d2
    simp only [maxMoveDistanceIsSentinel] at h
    linarith

/-- C6 counterexample: a Polygons::simplify implementation that satisfies
the spec's simplify contract (all output points within maxDeviation of the
input) can move the rendered support back into
`model_collision[0][z_collision_layer]`, because the source simplifies
AFTER the collision subtraction (line 236 after line 231). With a single
support circle at the origin, the collision point (1,0) and deviation 2,
the emitted support region contains the collision point. -/
theorem C6_simplify_can_reenter_collision :
    SimplifyContract dilateSimplify ∧
      ((1, 0) : Pt) ∈ renderSupport renderCtxCE ∧
      ((1, 0) : Pt) ∈
        renderCtxCE.collision0 (zCollisionLayer renderCtxCE.layer renderCtxCE.zdb) := by
  have hpre : preSimplifySupport renderCtxCE =
      (shapesUnion [{((0, 0) : Pt)}] \ ((∅ : Region) ∪ shapesUnion [])) \
        {((1, 0) : Pt)} := rfl
  have hmem : ((0, 0) : Pt) ∈ preSimplifySupport renderCtxCE := by
    rw [hpre]
    refine ⟨⟨⟨{((0, 0) : Pt)}, List.mem_singleton_self _, rfl⟩, ?_⟩, ?_⟩
    · intro h
      rcases h with h | h
      · exact h
      · obtain ⟨s2, hs2, _⟩ := h
        exact List.not_mem_nil s2 hs2
    · intro h
      exact (by decide : ((0, 0) : Pt) ≠ (1, 0)) h
  have hrs : renderSupport renderCtxCE =
      dilateSimplify (preSimplifySupport renderCtxCE) 0 2 := rfl
  refine ⟨fun s ms md p hp => hp, ?_, rfl⟩
  rw [hrs]
  exact ⟨(0, 0), hmem, by decide⟩

/-- C6 amended: whenever the indexed collision layer exists, the support
polygon immediately after the collision subtraction (before simplification)
and the emitted roof polygon are disjoint from
`model_collision[0][max(0, l - z_distance_bottom_layers + 1)]`, and every
point of the emitted support parts lies within the simplification deviation
(a quarter line width) of a point outside that collision layer, for every
simplify implementation satisfying the spec's simplify contract. -/
theorem C6_amended_disjointness (R : RenderCtx) (hc : SimplifyContract R.simplifyOp)
    (hz : zCollisionLayer R.layer R.zdb < R.numCollisionLayers) :
    (∀ p ∈ preSimplifySupport R, p ∉ R.collision0 (zCollisionLayer R.layer R.zdb)) ∧
      (∀ p ∈ renderRoof R, p ∉ R.collision0 (zCollisionLayer R.layer R.zdb)) ∧
      ∀ p ∈ renderSupport R,
        ∃ q, q ∉ R.collision0 (zCollisionLayer R.layer R.zdb) ∧
          vSize2 (p - q) ≤ R.maxDeviation * R.maxDeviation := by
  have h1 : ∀ p ∈ preSimplifySupport R,
      p ∉ R.collision0 (zCollisionLayer R.layer R.zdb) := by
    intro p hp
    simp only [preSimplifySupport] at hp
    rw [if_pos hz] at hp
    exact hp.2
  refine ⟨h1, ?_, ?_⟩
  · intro p hp
    simp only [renderRoof] at hp
    rw [if_pos hz] at hp
    exact hp.2
  · intro p hp
    have hp4 : p ∈ R.simplifyOp (preSimplifySupport R) R.maxSegment R.maxDeviation := by
      simp only [renderSupport] at hp
      by_cases hb : R.bottomEnable
      · rw [if_pos hb] at hp
        exact hp.1
      · rwa [if_neg hb] at hp
    obtain ⟨q, hq, hqd⟩ := hc _ _ _ _ hp4
    exact ⟨q, h1 q hq, hqd⟩

/-- C6 amended, instantiated on a degenerate context with the identity
simplify. -/
theorem C6_amended_disjointness_witness :
    (∀ p ∈ preSimplifySupport renderCtxTriv,
        p ∉ renderCtxTriv.collision0
            (zCollisionLayer renderCtxTriv.layer renderCtxTriv.zdb)) ∧
      (∀ p ∈ renderRoof renderCtxTriv,
        p ∉ renderCtxTriv.collision0
            (zCollisionLayer renderCtxTriv.layer renderCtxTriv.zdb)) ∧
      ∀ p ∈ renderSupport renderCtxTriv,
        ∃ q, q ∉ renderCtxTriv.collision0
              (zCollisionLayer renderCtxTriv.layer renderCtxTriv.zdb) ∧
          vSize2 (p - q) ≤ renderCtxTriv.maxDeviation * renderCtxTriv.maxDeviation :=
  C6_amended_disjointness renderCtxTriv
    (fun s ms md p hp => ⟨p, hp, by simpa [vSize2] using mul_self_nonneg md⟩)
    (by decide)

/-- C7: insertDroppedNode with a position conflict updates only the
existing node's distance_to_top and support_roof_layers_below, each to the
field-wise maximum, keeps its position, skin_direction and to_buildplate,
and inserts no second node; with no conflict the new node is inserted
unchanged. -/
theorem C7_insertDroppedNode_upsert (layer : List Node) (node : Node) :
    ((∀ m ∈ layer, m.position ≠ node.position) →
        insertDroppedNode layer node = layer ++ [node]) ∧
      (∀ pre m post, layer = pre ++ m :: post → m.position = node.position →
        (∀ x ∈ pre, x.position ≠ node.position) →
        insertDroppedNode layer node = pre ++ mergeNode m node :: post) ∧
      ∀ m, (mergeNode m node).position = m.position ∧
        (mergeNode m node).skin_direction = m.skin_direction ∧
        (mergeNode m node).to_buildplate = m.to_buildplate ∧
        (mergeNode m node).distance_to_top =
          max m.distance_to_top node.distance_to_top ∧
        (mergeNode m node).support_roof_layers_below =
          max m.support_roof_layers_below node.support_roof_layers_below := by
  refine ⟨fun h => insertDroppedNodeFresh node layer h, ?_,
    fun m => ⟨rfl, rfl, rfl, rfl, rfl⟩⟩
  intro pre m post hl hm hpre
  subst hl
  exact insertDroppedNodeConflict node pre m post hm hpre

/-- C7 instantiated: a conflicting insert folds into the existing node and
a fresh insert appends. -/
theorem C7_insertDroppedNode_upsert_witness :
    insertDroppedNode [insNodeOld] insNodeNew = [] ++ mergeNode insNodeOld insNodeNew :: [] ∧
      insertDroppedNode [] insNodeNew = [] ++ [insNodeNew] :=
  ⟨(C7_insertDroppedNode_upsert [insNodeOld] insNodeNew).2.1 [] insNodeOld [] rfl rfl
      (by simp),
    (C7_insertDroppedNode_upsert [] insNodeNew).1 (by simp)⟩

/-- C8: under the buildplate-only policy (support may not rest on the
model), every node that cannot reach the build plate is excluded from every
bucket of nodes_per_part, and the whole layer processing (bucketing, MST
passes and emissions onto the layer below) is unchanged when such nodes are
removed from the input: they produce no node on the layer below and trigger
no merge or movement handling. -/
theorem C8_buildplate_only_silent_drop (parts : List AvoidPart) (nodes : List Node)
    (n : Node) (_hn : n ∈ nodes) (htb : n.to_buildplate = false) :
    (∀ g ∈ assignBuckets false parts nodes, n ∉ g) ∧
      ∀ (G : DropGeo) (below : List Node),
        processLayer G false parts nodes below =
          processLayer G false parts (nodes.filter fun m => m.to_buildplate) below := by
  constructor
  · intro g hg hmem
    have h := assignBucketsTb parts nodes g hg n hmem
    rw [htb] at h
    exact Bool.false_ne_true h
  · intro G below
    unfold processLayer assignBuckets
    rw [assignBucketsFilterAux parts nodes]

/-- C8 instantiated on a single unreachable node. -/
theorem C8_buildplate_only_silent_drop_witness :
    (∀ g ∈ assignBuckets false [] [wNodeDrop], wNodeDrop ∉ g) ∧
      ∀ (G : DropGeo) (below : List Node),
        processLayer G false [] [wNodeDrop] below =
          processLayer G false [] (List.filter (fun m => m.to_buildplate) [wNodeDrop])
            below :=
  C8_buildplate_only_silent_drop [] [wNodeDrop] wNodeDrop (by simp) rfl

/-- C9: in the drawCircles routing, a node's generated shape is added to
the roof channel exactly when its support_roof_layers_below is at least 0,
and every node with a negative support_roof_layers_below contributes its
shape to the plain support channel and never to the roof channel: the two
channels are precisely the images of the two sign-filtered node lists. -/
theorem C9_roof_routing {α : Type} (circleOf : Node → α) (nodes : List Node) :
    (drawCirclesLayer circleOf nodes).1 =
        (nodes.filter fun n => decide (n.support_roof_layers_below < 0)).map circleOf ∧
      (drawCirclesLayer circleOf nodes).2 =
        (nodes.filter fun n => decide (0 ≤ n.support_roof_layers_below)).map circleOf := by
  unfold drawCirclesLayer
  rw [drawCirclesGo]
  simp

/-- C10: one dropNodes layer iteration never modifies the contact-node set
of the layer it processes, nor any layer other than the one below it:
nodes are read as copies, deletions live in a local set, and every
insertion targets the layer below. Consequently the processed layer's nodes
— including those merged away or marked deleted there — are still present
on that layer afterwards and are what the renderer sees for it. -/
theorem C10_dropNodes_frame (G : DropGeo) (rests : Bool) (parts : List AvoidPart)
    (contact : ℕ → List Node) (l : ℕ) (hl : 0 < l) :
    (∀ j, j ≠ l - 1 → dropLayer G rests parts contact l j = contact j) ∧
      dropLayer G rests parts contact l l = contact l ∧
      ∀ n ∈ contact l, n ∈ dropLayer G rests parts contact l l := by
  have hne : l ≠ l - 1 := (Nat.sub_lt hl Nat.one_pos).ne'
  refine ⟨fun j hj => ?_, ?_, ?_⟩
  · simp [dropLayer, hj]
  · simp [dropLayer, hne]
  · intro n hn
    simpa [dropLayer, hne] using hn

/-- C10 instantiated at layer 1 with empty contact layers. -/
theorem C10_dropNodes_frame_witness :
    (∀ j, j ≠ 1 - 1 →
        dropLayer trivialGeo false [] (fun _ => []) 1 j = []) ∧
      dropLayer trivialGeo false [] (fun _ => []) 1 1 = [] ∧
      ∀ n ∈ ([] : List Node), n ∈ dropLayer trivialGeo false [] (fun _ => []) 1 1 :=
  C10_dropNodes_frame trivialGeo false [] (fun _ => []) 1 (by decide)
